import Mathlib

/-!
Shallow embedding of the conversation-session engine of the
language-learning backend (FastAPI + Beanie source), covering:

* `get_scenario_context` (src/app/api/websockets/conversation.py)
* the websocket conversation endpoint's active message loop
  (`websocket_conversation_endpoint`, same file)
* `ChatService.send_message` and `ChatService._create_scenario_system_prompt`
  (src/app/services/chat.py)
* `ChatAgent.chat` (src/app/llm/agents/chat_agent.py)
* `OpenAIProvider.generate` (src/app/llm/providers/openai_provider.py)

External collaborators (the database stores, the OpenAI client, the
analysis service) are modelled as oracle functions supplied in an
environment record; everything the repository's own code does with
their results is translated directly from the Python source.
-/

namespace LangLearn

/-- One chat turn as the Python code passes it around:
a dict with keys "role" and "content". -/
structure Msg where
  role : String
  content : String
deriving Repr, DecidableEq

/-- Token-usage triple as reported by the provider
(`response.usage` in openai_provider.py). -/
structure Usage where
  prompt_tokens : Nat
  completion_tokens : Nat
  total_tokens : Nat
deriving Repr, DecidableEq

/-- The raw usage block of the OpenAI API response consumed by
`OpenAIProvider.generate`. -/
structure ApiUsage where
  prompt_tokens : Nat
  completion_tokens : Nat
  total_tokens : Nat
deriving Repr, DecidableEq

/-- The part of the raw OpenAI chat-completion response that
`OpenAIProvider.generate` reads (content, usage, model, finish_reason). -/
structure ApiResponse where
  content : String
  usage : ApiUsage
  model : String
  finish_reason : String
deriving Repr, DecidableEq

/-- `LLMResponse` as built by `OpenAIProvider.generate`
(src/app/llm/providers/openai_provider.py, lines 29-38). -/
structure LLMResponse where
  content : String
  usage : Usage
  model : String
  metadataFinishReason : String
deriving Repr, DecidableEq

/-- `OpenAIProvider.generate`: maps the raw API response to an
`LLMResponse`, copying the three usage counters verbatim.  The network
call itself is the oracle; this is the repository code around it. -/
def OpenAIProvider.generate (resp : ApiResponse) : LLMResponse :=
  { content := resp.content
    usage :=
      { prompt_tokens := resp.usage.prompt_tokens
        completion_tokens := resp.usage.completion_tokens
        total_tokens := resp.usage.total_tokens }
    model := resp.model
    metadataFinishReason := resp.finish_reason }

/-- Scenario context dict returned by `get_scenario_context`:
keys "title", "role", "summary". -/
structure ScenarioContext where
  title : String
  role : String
  summary : String
deriving Repr, DecidableEq

/-- A stored `MeetingAnalysis` document, restricted to the fields
`get_scenario_context` reads (owner id after `fetch_link`, meeting
name, transcription). -/
structure MeetingAnalysis where
  userId : Nat
  meeting_name : String
  transcription : String
deriving Repr, DecidableEq

/-- A stored `PracticeScenario` document, restricted to the fields
`get_scenario_context` reads. -/
structure PracticeScenario where
  userId : Nat
  title : String
  role : String
  description : String
deriving Repr, DecidableEq

/-- Oracles for the two database fetches in `get_scenario_context`.
Each models `Model.get(id)` followed by `fetch_link`; `Except.error`
models the call raising (caught by the function's catch-all). -/
structure ScenarioEnv where
  meetingGet : String → Except String (Option MeetingAnalysis)
  customGet : String → Except String (Option PracticeScenario)

/-- The fixed predefined-scenario catalog of `get_scenario_context`
(conversation.py lines 29-61), keyed by scenario id. -/
def predefinedScenarios : String → Option ScenarioContext
  | "job_interview" =>
      some ⟨"Job Interview", "interviewer", "conducting a job interview"⟩
  | "restaurant" =>
      some ⟨"Restaurant Conversation", "restaurant server",
            "helping customer with menu and orders"⟩
  | "business_meeting" =>
      some ⟨"Business Meeting", "business colleague",
            "discussing project updates and collaboration"⟩
  | "travel" =>
      some ⟨"Travel & Tourism", "travel assistant",
            "helping traveler with information and bookings"⟩
  | "shopping" =>
      some ⟨"Shopping", "shop assistant",
            "helping customer find and purchase products"⟩
  | "doctor_visit" =>
      some ⟨"Doctor Visit", "doctor", "medical consultation with patient"⟩
  | _ => none

/-- The meeting summary string built in the `"meeting"` branch
(conversation.py lines 75-77): the meeting name, plus the first 200
characters of the transcription only when the transcription is longer
than 200 characters. -/
def meetingSummary (a : MeetingAnalysis) : String :=
  let base := "meeting about " ++ a.meeting_name
  if 200 < a.transcription.length then
    base ++ " - topic: " ++ (a.transcription.take 200) ++ "..."
  else
    base

/-- The fallback descriptor returned by the `"custom"` branch when the
record is missing or not owned (conversation.py lines 100-105). -/
def customFallback : ScenarioContext :=
  ⟨"Custom Scenario", "conversation partner", "custom practice scenario"⟩

/-- The body of `get_scenario_context` before its catch-all
`except Exception` (conversation.py lines 26-106).  `Except.error`
propagates a raised database error to the catch-all. -/
def getScenarioContextBody (env : ScenarioEnv)
    (scenario_id scenario_type : String) (userId : Nat) :
    Except String (Option ScenarioContext) :=
  if scenario_type = "predefined" then
    .ok (predefinedScenarios scenario_id)
  else if scenario_type = "meeting" then do
    let meeting_id := scenario_id.replace "meeting_" ""
    let analysis? ← env.meetingGet meeting_id
    match analysis? with
    | some analysis =>
        if analysis.userId = userId then
          pure (some ⟨analysis.meeting_name, "meeting participant",
                      meetingSummary analysis⟩)
        else
          pure none
    | none => pure none
  else if scenario_type = "custom" then do
    let custom_id := scenario_id.replace "custom_" ""
    let scenario? ← env.customGet custom_id
    match scenario? with
    | some scenario =>
        if scenario.userId = userId then
          pure (some ⟨scenario.title, scenario.role, scenario.description⟩)
        else
          pure (some customFallback)
    | none => pure (some customFallback)
  else
    .ok none

/-- `get_scenario_context` (conversation.py lines 18-110): the body
wrapped in the catch-all that turns any raised error into `None`. -/
def get_scenario_context (env : ScenarioEnv)
    (scenario_id scenario_type : String) (userId : Nat) :
    Option ScenarioContext :=
  match getScenarioContextBody env scenario_id scenario_type userId with
  | .ok r => r
  | .error _ => none

/-! ## Conversation Agent (src/app/llm/agents/chat_agent.py) -/

/-- The message list `ChatAgent.process_input` hands to the provider:
the chat history followed by the new user turn
(chat_agent.py lines 33-37). -/
def ChatAgent.chatMessages (user_input : String) (chat_history : List Msg) :
    List Msg :=
  chat_history ++ [⟨"user", user_input⟩]

/-- Normalized result of `ChatAgent.chat` (chat_agent.py lines 74-79). -/
structure AgentChatOut where
  response : String
  usage : Usage
  model : String
  messages : List Msg
deriving Repr, DecidableEq

/-- `ChatAgent.chat` (chat_agent.py lines 58-79): build the message list,
invoke the provider once (oracle `gen`; `Except.error` models the provider
raising, which the agent propagates), echo the accumulated message list.
The agent persists nothing (`store_memory` is the identity). -/
def ChatAgent.chat (gen : List Msg → Except String LLMResponse)
    (user_input : String) (chat_history : List Msg) :
    Except String AgentChatOut :=
  let messages := ChatAgent.chatMessages user_input chat_history
  match gen messages with
  | .error e => .error e
  | .ok r =>
      .ok { response := r.content
            usage := r.usage
            model := r.model
            messages := messages ++ [⟨"assistant", r.content⟩] }

/-! ## Scenario system prompts (src/app/services/chat.py) -/

/-- Scenario metadata embedded in `Session.metadata["scenario"]` by the
websocket endpoint (conversation.py lines 250-258): id, type, title,
description, role. -/
structure ScenarioMetadata where
  id : String
  typ : String
  title : String
  description : String
  role : String
deriving Repr, DecidableEq

/-- The per-scenario prompts dict of
`ChatService._create_scenario_system_prompt` (chat.py lines 141-219),
with the dict-miss default of line 221. -/
def predefinedPrompt (scenario_id scenario_title scenario_description
    language : String) : String :=
  match scenario_id with
  | "job_interview" =>
      "You are conducting a job interview in " ++ language ++
      ". You are a professional HR manager or hiring manager.\n\n" ++
      "Your role:\n- Ask relevant interview questions about experience, " ++
      "skills, and career goals\n- Respond naturally to the candidate\x27s " ++
      "answers\n- Follow up with probing questions\n- Maintain a " ++
      "professional but friendly tone\n- Occasionally ask for " ++
      "clarification or examples\n- Adapt your questions based on their " ++
      "responses\n- Speak ONLY in " ++ language ++
      "\n\nStart by greeting the candidate and asking them to tell you " ++
      "about themselves."
  | "restaurant" =>
      "You are a waiter/waitress at a restaurant, speaking only in " ++
      language ++ ".\n\nYour role:\n- Greet customers warmly\n- Present " ++
      "the menu and daily specials\n- Take orders and answer questions " ++
      "about dishes\n- Suggest drinks and desserts\n- Handle special " ++
      "requests or dietary restrictions\n- Be helpful and attentive\n- " ++
      "Speak ONLY in " ++ language ++
      "\n\nStart by greeting the customer and asking if they would like " ++
      "to see the menu."
  | "business_meeting" =>
      "You are a colleague in a business meeting, speaking only in " ++
      language ++ ".\n\nYour role:\n- Discuss project updates and " ++
      "deadlines\n- Ask for status reports and clarifications\n- Propose " ++
      "solutions to problems\n- Schedule follow-up actions\n- Maintain " ++
      "professional language\n- Encourage participation\n- Speak ONLY in " ++
      language ++
      "\n\nStart by welcoming everyone to the meeting and asking for " ++
      "project updates."
  | "travel" =>
      "You are a travel agent or hotel receptionist, speaking only in " ++
      language ++ ".\n\nYour role:\n- Help with travel bookings and " ++
      "recommendations\n- Provide information about destinations\n- " ++
      "Assist with hotel check-in/check-out\n- Give directions and local " ++
      "tips\n- Handle travel-related problems\n- Be informative and " ++
      "helpful\n- Speak ONLY in " ++ language ++
      "\n\nStart by greeting the traveler and asking how you can help " ++
      "them today."
  | "shopping" =>
      "You are a shop assistant in a clothing store, speaking only in " ++
      language ++ ".\n\nYour role:\n- Greet customers and offer " ++
      "assistance\n- Help find sizes and styles\n- Suggest items and " ++
      "give opinions\n- Explain prices and discounts\n- Handle payment " ++
      "questions\n- Be friendly and helpful\n- Speak ONLY in " ++
      language ++
      "\n\nStart by greeting the customer and asking if they need any " ++
      "help."
  | "doctor_visit" =>
      "You are a doctor in a medical consultation, speaking only in " ++
      language ++ ".\n\nYour role:\n- Ask about symptoms and medical " ++
      "history\n- Show empathy and understanding\n- Explain diagnoses " ++
      "in simple terms\n- Give medical advice and prescriptions\n- " ++
      "Answer health-related questions\n- Maintain professional medical " ++
      "manner\n- Speak ONLY in " ++ language ++
      "\n\nStart by greeting the patient and asking what brings them in " ++
      "today."
  | _ =>
      "You are helping someone practice " ++ language ++ " in a " ++
      scenario_title ++ " scenario. " ++ scenario_description ++
      ". Speak ONLY in " ++ language ++ "."

/-- The meeting-scenario prompt of
`ChatService._create_scenario_system_prompt` (chat.py lines 229-238). -/
def meetingPrompt (meeting_name language : String) : String :=
  "You are a colleague in a meeting similar to \x27" ++ meeting_name ++
  "\x27, speaking only in " ++ language ++
  ".\n\nYour role:\n- Ask questions that would naturally come up in such " ++
  "meetings\n- Respond to updates and information shared\n- Request " ++
  "clarifications when needed\n- Maintain the professional context\n- " ++
  "Speak ONLY in " ++ language ++
  "\n\nStart by setting the meeting context and asking for an update."

/-- The custom-scenario prompt of
`ChatService._create_scenario_system_prompt` (chat.py lines 249-261). -/
def customPrompt (title description role language : String) : String :=
  "You are playing the role of " ++ role ++
  " in the following scenario:\nTitle: " ++ title ++ "\nContext: " ++
  description ++
  "\n\nYour role:\n- Stay in character throughout the conversation\n- " ++
  "Create realistic dialogue for this scenario\n- Ask relevant questions " ++
  "and respond naturally\n- Adapt to the user\x27s responses\n- Maintain " ++
  "appropriate tone for the scenario\n- Speak ONLY in " ++ language ++
  "\n\nStart the conversation in a way that fits this scenario."

/-- `ChatService._create_scenario_system_prompt` (chat.py lines 122-272):
dispatch on the metadata type; unknown types (free conversation)
yield no prompt. -/
def createScenarioSystemPrompt (m : ScenarioMetadata) (language : String) :
    Option String :=
  if m.typ = "predefined" then
    some (predefinedPrompt m.id m.title m.description language)
  else if m.typ = "meeting" then
    some (meetingPrompt m.title language)
  else if m.typ = "custom" then
    some (customPrompt m.title m.description m.role language)
  else
    none

/-- The one-time system instruction the websocket endpoint prepends to
the enhanced history (conversation.py lines 367-381). -/
def wsSystemMessageContent (ctx : ScenarioContext) (language : String) :
    String :=
  "You are taking on the role of " ++ ctx.role ++ " in a " ++ language ++
  " conversation practice. The topic is: " ++ ctx.summary ++
  ".\n\nYour goal is to simulate a natural, human-like conversation. " ++
  "Speak as a real person would: vary your sentence length, use natural " ++
  "pauses, and react to what the user says. Sometimes answer briefly, " ++
  "sometimes expand â€” just like people do.\n\nAsk follow-up questions. " ++
  "Make observations. Respond with a mix of clarity and personality. " ++
  "Avoid sounding repetitive or scripted.\n\nYou are here to help the " ++
  "user get comfortable using " ++ language ++ " in realistic " ++
  "situations. Keep things practical, friendly, and dynamic. Stay in " ++
  "character and keep the flow going.\n\nDon\x27t over-explain. " ++
  "Don\x27t dominate the conversation. Let the user lead when it makes " ++
  "sense, and gently guide them when they need help.\n\nYour response " ++
  "should not be too long. Try to keep it concise and engaging."

/-! ## Observable effects

Both message-processing paths are embedded as functions that, besides
their return value, emit an ordered log of observable effects: database
inserts, the provider invocation, events sent to the client, transport
close, and Connection-Registry deregistration.  The log order is the
execution order of the corresponding Python statements. -/

/-- Events the engine sends to the client (`websocket.send_json`). -/
inductive OutEvent
  | assistantMessage (text : String) (usage : Usage)
  | errorEvent (message : String)
  | pong
  | analysisEvent (feedback_id : String)
  | keepalive
deriving Repr, DecidableEq

/-- One observable effect of the engine, in execution order. -/
inductive Effect
  | insertMessage (role content : String) (token_count : Nat)
      (modelTag : Option String)
  | insertUsage (model : String) (prompt completion total : Nat)
  | agentCall (messages : List Msg)
  | send (e : OutEvent)
  | closeTransport
  | deregister
  | analysisCall (force_reanalysis : Bool)
  | sessionSave
deriving Repr, DecidableEq

/-! ## ChatService.send_message (src/app/services/chat.py, lines 274-382) -/

/-- Environment of one `send_message` call: the token counter, the
provider oracle, the persisted message log of the session
(`get_session_messages`), and the session metadata fields it reads. -/
structure SendEnv where
  countTokens : String → Nat
  gen : List Msg → Except String LLMResponse
  persistedHistory : List Msg
  scenarioMetadata : Option ScenarioMetadata
  language : String

/-- Result of `send_message`: the returned dict on success (response,
usage, model), or the propagated provider error, plus the effect log up
to the point the call returned or raised. -/
structure SendResult where
  result : Except String (String × Usage × String)
  effects : List Effect
deriving Repr

/-- The in-memory history `send_message` assembles (chat.py lines
291-333): a one-time scenario system prompt when the session has
scenario metadata and no persisted messages yet, followed by the
persisted history. -/
def sendMessageHistory (env : SendEnv) : List Msg :=
  let head : List Msg :=
    match env.scenarioMetadata with
    | some m =>
        if env.persistedHistory.length = 0 then
          match createScenarioSystemPrompt m env.language with
          | some sp => [⟨"system", sp⟩]
          | none => []
        else []
    | none => []
  head ++ env.persistedHistory

/-- `ChatService.send_message` (chat.py lines 274-382), starting after
session resolution: assemble the history, insert the user message,
invoke the agent, then insert the assistant message, insert the usage
record and save the session.  A provider failure propagates out of the
function after the user message was already inserted. -/
def sendMessage (env : SendEnv) (message : String) : SendResult :=
  let history_dicts := sendMessageHistory env
  let userInsert :=
    Effect.insertMessage "user" message (env.countTokens message) none
  let messages := ChatAgent.chatMessages message history_dicts
  match ChatAgent.chat env.gen message history_dicts with
  | .error e => ⟨.error e, [userInsert, .agentCall messages]⟩
  | .ok r =>
      ⟨.ok (r.response, r.usage, r.model),
       [userInsert,
        .agentCall messages,
        .insertMessage "assistant" r.response r.usage.completion_tokens
          (some r.model),
        .insertUsage r.model r.usage.prompt_tokens
          r.usage.completion_tokens r.usage.total_tokens,
        .sessionSave]⟩

/-! ## The websocket active loop
(src/app/api/websockets/conversation.py, lines 287-577) -/

/-- Python `str.strip()`: remove leading and trailing whitespace.
Defined over the character list so that it evaluates by kernel
reduction. -/
def pyStrip (s : String) : String :=
  ⟨((s.data.dropWhile Char.isWhitespace).reverse.dropWhile
      Char.isWhitespace).reverse⟩

/-- A parsed client JSON payload (`data`).  `typ` is the value under the
key "type" when present; `data["type"]` on a payload without that key
raises a `KeyError` in the Python code.  `text` and `force_reanalysis`
model `data.get("text", "")` and `data.get("force_reanalysis", False)`. -/
structure ClientData where
  typ : Option String
  text : Option String
  force_reanalysis : Option Bool
deriving Repr, DecidableEq

/-- An exception escaping the per-event dispatch to the handler's outer
`except Exception` block. -/
inductive PyErr
  | keyError (key : String)
deriving Repr, DecidableEq

/-- Whether the dispatch of one event continues the `while True` loop or
closes the websocket and breaks out of it. -/
inductive LoopCtl
  | next
  | closeAndBreak
deriving Repr, DecidableEq

/-- Environment of one live websocket connection after `SESSION_READY`:
the resolved scenario context, the negotiated language, the token
counter, the provider oracle and the analysis-service oracle
(`LanguageLearningService.analyze_conversation`, keyed by the
force_reanalysis flag; `Except.error` models it raising). -/
structure LoopEnv where
  scenario : Option ScenarioContext
  language : String
  countTokens : String → Nat
  gen : List Msg → Except String LLMResponse
  analyze : Bool → Except String String

/-- The enhanced history built for one voice input (conversation.py
lines 350-389): a copy of the in-memory transcript, with the scenario
system message prepended when a scenario context exists and the copy
contains no system turn yet. -/
def enhancedHistory (env : LoopEnv) (history : List Msg) : List Msg :=
  match env.scenario with
  | some ctx =>
      if history.any (fun m => m.role == "system") then history
      else ⟨"system", wsSystemMessageContent ctx env.language⟩ :: history
  | none => history

/-- Number of system-role turns in a message list. -/
def systemCount (l : List Msg) : Nat :=
  (l.filter (fun m => m.role == "system")).length

/-- Dispatch of one parsed client event in the active loop
(conversation.py lines 333-563).  Returns the updated in-memory
transcript `history_dicts`, the effect log of the iteration and the
loop control, or the exception escaping the dispatch.  Sends are
modelled as succeeding; database inserts as succeeding; the provider
and the analysis service may fail through their oracles, and those
failures are caught exactly where the Python code catches them. -/
def handleData (env : LoopEnv) (history : List Msg) (d : ClientData) :
    Except PyErr (List Msg × List Effect × LoopCtl) :=
  match d.typ with
  | none => .error (.keyError "type")
  | some t =>
    if t = "voice_input" then
      let user_text := pyStrip (d.text.getD "")
      if user_text = "" then
        .ok (history, [], .next)
      else
        let enhanced := enhancedHistory env history
        let messages := ChatAgent.chatMessages user_text enhanced
        match ChatAgent.chat env.gen user_text enhanced with
        | .error e =>
            .ok (history,
                 [.agentCall messages,
                  .send (.errorEvent
                    ("Error processing your message: " ++ e))],
                 .next)
        | .ok r =>
            .ok (history ++ [⟨"user", user_text⟩, ⟨"assistant", r.response⟩],
                 [.agentCall messages,
                  .insertMessage "user" user_text
                    (env.countTokens user_text) none,
                  .insertMessage "assistant" r.response
                    r.usage.completion_tokens (some r.model),
                  .insertUsage r.model r.usage.prompt_tokens
                    r.usage.completion_tokens r.usage.total_tokens,
                  .send (.assistantMessage r.response r.usage)],
                 .next)
    else if t = "ping" then
      .ok (history, [.send .pong], .next)
    else if t = "analyze_conversation" then
      let force := d.force_reanalysis.getD false
      match env.analyze force with
      | .ok fid =>
          .ok (history,
               [.analysisCall force, .send (.analysisEvent fid)], .next)
      | .error _ =>
          .ok (history,
               [.analysisCall force,
                .send (.errorEvent "Failed to analyze conversation")],
               .next)
    else if t = "end_conversation" then
      match env.analyze true with
      | .ok fid =>
          .ok (history,
               [.analysisCall true, .send (.analysisEvent fid),
                .closeTransport],
               .closeAndBreak)
      | .error _ =>
          .ok (history,
               [.analysisCall true,
                .send (.errorEvent "Failed to analyze conversation"),
                .closeTransport],
               .closeAndBreak)
    else
      .ok (history,
           [.send (.errorEvent ("Unknown message type: " ++ t))], .next)

/-- One outcome of the `await websocket.receive()` wait, as the loop
head distinguishes them (conversation.py lines 287-331). -/
inductive InEvent
  /-- `asyncio.TimeoutError`: send a keepalive, continue. -/
  | timeoutEv
  /-- a `websocket.disconnect` transport message: break out of the loop. -/
  | disconnectMsg
  /-- a transport message without a "text" field: continue. -/
  | nonTextMsg
  /-- a text frame that is not valid JSON: error event, continue. -/
  | badJson
  /-- a transport message of unknown type: continue. -/
  | unknownTransportMsg
  /-- any other exception while receiving: break out of the loop. -/
  | recvError
  /-- a `WebSocketDisconnect` exception raised during the iteration,
  caught by the handler's `except WebSocketDisconnect`. -/
  | raiseDisconnect
  /-- a parsed JSON payload handed to the event dispatch. -/
  | data (d : ClientData)
deriving Repr, DecidableEq

/-- Result of running the handler on a finite event trace: the final
in-memory transcript, the full effect log, and whether the handler
returned (as opposed to still waiting in the loop). -/
structure RunResult where
  history : List Msg
  effects : List Effect
  exited : Bool
deriving Repr

/-- The `while True` loop of `websocket_conversation_endpoint` together
with the handler's two outer `except` clauses (conversation.py lines
287-577), run on a finite trace of receive outcomes.  The handler is
entered with the connection already registered in the Connection
Registry (`manager.connect`, line 189); `Effect.deregister` records the
only call to `manager.disconnect` (line 566), made when a
`WebSocketDisconnect` exception is caught.  Any other exception
escaping the dispatch reaches the generic `except Exception` (line
568), which sends an error event and closes the transport without
deregistering.  A `break` leaves the loop and the function returns
normally, also without deregistering. -/
def runLoop (env : LoopEnv) : List InEvent → List Msg → RunResult
  | [], history => ⟨history, [], false⟩
  | .timeoutEv :: rest, history =>
      let r := runLoop env rest history
      ⟨r.history, .send .keepalive :: r.effects, r.exited⟩
  | .disconnectMsg :: _, history => ⟨history, [], true⟩
  | .nonTextMsg :: rest, history => runLoop env rest history
  | .badJson :: rest, history =>
      let r := runLoop env rest history
      ⟨r.history, .send (.errorEvent "Invalid JSON format") :: r.effects,
       r.exited⟩
  | .unknownTransportMsg :: rest, history => runLoop env rest history
  | .recvError :: _, history => ⟨history, [], true⟩
  | .raiseDisconnect :: _, history => ⟨history, [.deregister], true⟩
  | .data d :: rest, history =>
      match handleData env history d with
      | .error (.keyError k) =>
          ⟨history,
           [.send (.errorEvent ("\x27" ++ k ++ "\x27")), .closeTransport],
           true⟩
      | .ok (history2, fx, .next) =>
          let r := runLoop env rest history2
          ⟨r.history, fx ++ r.effects, r.exited⟩
      | .ok (history2, fx, .closeAndBreak) => ⟨history2, fx, true⟩

/-! ## Shared concrete instances for witnesses and counterexamples -/

/-- A provider oracle that always succeeds with a fixed response. -/
def demoGen : List Msg → Except String LLMResponse :=
  fun _ => .ok ⟨"ok-resp", ⟨1, 1, 2⟩, "m1", "stop"⟩

/-- A loop environment with no scenario and well-behaved oracles. -/
def envPlain : LoopEnv :=
  { scenario := none
    language := "en"
    countTokens := fun s => s.length
    gen := demoGen
    analyze := fun _ => .ok "fb1" }

/-- A loop environment with a resolved predefined scenario. -/
def envScen : LoopEnv :=
  { envPlain with
    scenario := some ⟨"Job Interview", "interviewer",
                      "conducting a job interview"⟩ }

/-- The parsed payload of an `end_conversation` event. -/
def endData : ClientData := ⟨some "end_conversation", none, none⟩

/-- The parsed payload of a `ping` event. -/
def pingData : ClientData := ⟨some "ping", none, none⟩

/-- A parsed JSON object that has no "type" key. -/
def noTypeData : ClientData := ⟨none, none, none⟩

/-- The parsed payload of a non-empty `voice_input` event. -/
def voiceHi : ClientData := ⟨some "voice_input", some "hi", none⟩

/-! ## Helper lemmas about one dispatch step -/

/-- `handleData` never deregisters: the only call to
`manager.disconnect` lives in the handler's `except WebSocketDisconnect`
clause, not in the event dispatch. -/
theorem handleData_no_deregister {env : LoopEnv} {h h2 : List Msg}
    {d : ClientData} {fx : List Effect} {ctl : LoopCtl}
    (he : handleData env h d = .ok (h2, fx, ctl)) :
    Effect.deregister ∉ fx := by
  unfold handleData at he
  dsimp only at he
  repeat' split at he
  all_goals cases he <;> simp

/-- No run of the loop that never hits the `except WebSocketDisconnect`
clause ever calls `manager.disconnect`. -/
theorem runLoop_no_deregister (env : LoopEnv) :
    ∀ (es : List InEvent) (h0 : List Msg),
      InEvent.raiseDisconnect ∉ es →
      Effect.deregister ∉ (runLoop env es h0).effects := by
  intro es
  induction es with
  | nil => intro h0 _; simp [runLoop]
  | cons e rest ih =>
    intro h0 hnd
    have hne : e ≠ InEvent.raiseDisconnect := fun hEq => hnd (hEq ▸ List.mem_cons_self e rest)
    have hrest : InEvent.raiseDisconnect ∉ rest := fun hm => hnd (List.mem_cons_of_mem e hm)
    cases e with
    | timeoutEv => simpa [runLoop] using ih h0 hrest
    | disconnectMsg => simp [runLoop]
    | nonTextMsg => simpa [runLoop] using ih h0 hrest
    | badJson => simpa [runLoop] using ih h0 hrest
    | unknownTransportMsg => simpa [runLoop] using ih h0 hrest
    | recvError => simp [runLoop]
    | raiseDisconnect => exact absurd rfl hne
    | data d =>
      cases hd : handleData env h0 d with
      | error pe => cases pe with | keyError k => simp [runLoop, hd]
      | ok out =>
        obtain ⟨h2, fx, ctl⟩ := out
        cases ctl with
        | next =>
          simp only [runLoop, hd, RunResult.mk.injEq, List.mem_append]
          intro hmem
          rcases hmem with hfx | hrest2
          · exact handleData_no_deregister hd hfx
          · exact ih h2 hrest hrest2
        | closeAndBreak =>
          simp only [runLoop, hd]
          exact handleData_no_deregister hd

/-- Every persisted message effect of one dispatch step carries role
"user" or "assistant". -/
theorem handleData_insert_roles {env : LoopEnv} {h h2 : List Msg}
    {d : ClientData} {fx : List Effect} {ctl : LoopCtl}
    (he : handleData env h d = .ok (h2, fx, ctl)) :
    ∀ role content tc mt,
      Effect.insertMessage role content tc mt ∈ fx →
      role = "user" ∨ role = "assistant" := by
  unfold handleData at he
  dsimp only at he
  repeat' split at he
  all_goals cases he
  all_goals intro role content tc mt hmem
  all_goals simp_all
  all_goals tauto

/-- If a history has no system turn, its system-membership test is
false. -/
theorem systemCount_any_false {h : List Msg} (hc : systemCount h = 0) :
    h.any (fun m => m.role == "system") = false := by
  unfold systemCount at hc
  rw [List.length_eq_zero] at hc
  rw [List.any_eq_false]
  intro m hm
  have := List.filter_eq_nil_iff.mp hc m hm
  simpa using this

/-- One dispatch step preserves "the in-memory transcript has no system
turn", and, when a scenario context is resolved, every provider
invocation it performs carries exactly one system turn. -/
theorem handleData_system_inv {env : LoopEnv} {ctx : ScenarioContext}
    {h h2 : List Msg} {d : ClientData} {fx : List Effect} {ctl : LoopCtl}
    (hs : env.scenario = some ctx) (hc : systemCount h = 0)
    (he : handleData env h d = .ok (h2, fx, ctl)) :
    systemCount h2 = 0 ∧
    ∀ msgs, Effect.agentCall msgs ∈ fx → systemCount msgs = 1 := by
  have hanyF := systemCount_any_false hc
  have hfil : h.filter (fun m => m.role == "system") = [] :=
    List.length_eq_zero.mp hc
  have henh : ∀ ut, systemCount
      (ChatAgent.chatMessages ut (enhancedHistory env h)) = 1 := by
    intro ut
    simp [ChatAgent.chatMessages, enhancedHistory, hs, hanyF,
      systemCount, List.filter_append, hfil]
  constructor
  · unfold handleData at he
    dsimp only at he
    repeat' split at he
    all_goals cases he
    all_goals try exact hc
    all_goals simp [systemCount, List.filter_append, hfil]
  · unfold handleData at he
    dsimp only at he
    repeat' split at he
    all_goals cases he
    all_goals intro msgs hmem
    all_goals simp at hmem
    all_goals (subst hmem; exact henh _)

/-- Invariant-plus-effect soundness of a full run: if every dispatch
step preserves `I` and only emits effects satisfying `P`, and the
loop-head effects satisfy `P`, then so does the whole run. -/
theorem runLoop_invariant (env : LoopEnv) (I : List Msg → Prop)
    (P : Effect → Prop)
    (hstep : ∀ h d h2 fx ctl, I h →
      handleData env h d = .ok (h2, fx, ctl) → I h2 ∧ ∀ e ∈ fx, P e)
    (hkeep : P (.send .keepalive))
    (hjson : P (.send (.errorEvent "Invalid JSON format")))
    (hkey : ∀ k, P (.send (.errorEvent ("\x27" ++ k ++ "\x27"))))
    (hclose : P Effect.closeTransport)
    (hdereg : P Effect.deregister) :
    ∀ (es : List InEvent) (h0 : List Msg), I h0 →
      I (runLoop env es h0).history ∧
      ∀ e ∈ (runLoop env es h0).effects, P e := by
  intro es
  induction es with
  | nil => intro h0 hI; exact ⟨by simpa [runLoop] using hI, by simp [runLoop]⟩
  | cons ev rest ih =>
    intro h0 hI
    cases ev with
    | timeoutEv =>
      obtain ⟨ha, hb⟩ := ih h0 hI
      refine ⟨by simpa [runLoop] using ha, ?_⟩
      simp only [runLoop]
      intro e hm
      rcases List.mem_cons.mp hm with hEq | hm2
      · exact hEq ▸ hkeep
      · exact hb e hm2
    | disconnectMsg =>
      exact ⟨by simpa [runLoop] using hI, by simp [runLoop]⟩
    | nonTextMsg =>
      obtain ⟨ha, hb⟩ := ih h0 hI
      exact ⟨by simpa [runLoop] using ha, by simpa [runLoop] using hb⟩
    | badJson =>
      obtain ⟨ha, hb⟩ := ih h0 hI
      refine ⟨by simpa [runLoop] using ha, ?_⟩
      simp only [runLoop]
      intro e hm
      rcases List.mem_cons.mp hm with hEq | hm2
      · exact hEq ▸ hjson
      · exact hb e hm2
    | unknownTransportMsg =>
      obtain ⟨ha, hb⟩ := ih h0 hI
      exact ⟨by simpa [runLoop] using ha, by simpa [runLoop] using hb⟩
    | recvError =>
      exact ⟨by simpa [runLoop] using hI, by simp [runLoop]⟩
    | raiseDisconnect =>
      refine ⟨by simpa [runLoop] using hI, ?_⟩
      simp only [runLoop]
      intro e hm
      rcases List.mem_cons.mp hm with hEq | hFalse
      · exact hEq ▸ hdereg
      · exact absurd hFalse (List.not_mem_nil e)
    | data d =>
      cases hd : handleData env h0 d with
      | error pe =>
        cases pe with
        | keyError k =>
          refine ⟨by simpa [runLoop, hd] using hI, ?_⟩
          simp only [runLoop, hd]
          intro e hm
          rcases List.mem_cons.mp hm with hEq | hm2
          · exact hEq ▸ hkey k
          · rcases List.mem_cons.mp hm2 with hEq | hFalse
            · exact hEq ▸ hclose
            · exact absurd hFalse (List.not_mem_nil e)
      | ok out =>
        obtain ⟨h2, fx, ctl⟩ := out
        obtain ⟨hI2, hfx⟩ := hstep h0 d h2 fx ctl hI hd
        cases ctl with
        | next =>
          obtain ⟨ha, hb⟩ := ih h2 hI2
          refine ⟨by simpa [runLoop, hd] using ha, ?_⟩
          simp only [runLoop, hd, List.mem_append]
          exact fun e hm => hm.elim (hfx e) (hb e)
        | closeAndBreak =>
          exact ⟨by simpa [runLoop, hd] using hI2,
                 by simpa [runLoop, hd] using hfx⟩

/-- Claim C1, as stated, is false: after an `end_conversation` event the
handler closes the websocket and returns, but the principal's
Connection-Registry entry is never removed (only the
`except WebSocketDisconnect` exit path calls `manager.disconnect`). -/
theorem C1_counterexample :
    (runLoop envPlain [.data endData] []).exited = true ∧
    Effect.deregister ∉ (runLoop envPlain [.data endData] []).effects := by
  decide

/-- Claim C1 (amended): deregistration from the Connection Registry
happens only on the exit path where a `WebSocketDisconnect` exception is
caught; every run without such an exception — including explicit
`end_conversation` closes and fatal dispatch errors — returns with the
registry entry still present. -/
theorem C1_amended (env : LoopEnv) (es : List InEvent) (h0 : List Msg)
    (hnd : InEvent.raiseDisconnect ∉ es) :
    Effect.deregister ∉ (runLoop env es h0).effects ∧
    runLoop env (InEvent.raiseDisconnect :: es) h0 = ⟨h0, [.deregister], true⟩ :=
  ⟨runLoop_no_deregister env es h0 hnd, rfl⟩

/-- Witness for `C1_amended` at a concrete trace. -/
theorem C1_amended_witness :
    Effect.deregister ∉ (runLoop envPlain [.data endData] []).effects ∧
    runLoop envPlain (InEvent.raiseDisconnect :: [.data endData]) [] =
      ⟨[], [.deregister], true⟩ :=
  C1_amended envPlain [.data endData] [] (by decide)

/-- Claim C3, as stated, is false: after the first successful
`voice_input` on a fresh session with a resolved Scenario Descriptor,
the in-memory transcript (`history_dicts`) holds the user and assistant
turns but zero system-role turns — the system message only ever goes
into the per-call copy (`enhanced_history`), which is rebuilt from
scratch on each iteration. -/
theorem C3_counterexample :
    (runLoop envScen [.data voiceHi] []).history =
      [⟨"user", "hi"⟩, ⟨"assistant", "ok-resp"⟩] ∧
    systemCount (runLoop envScen [.data voiceHi] []).history ≠ 1 := by
  decide

/-- Claim C3 (amended): the scenario system instruction is re-injected
into a fresh copy of the transcript on every `voice_input`, because the
persistent in-memory transcript never records a system turn.  For every
run on a session whose loaded history has no system turn and whose
Scenario Descriptor resolved, the transcript still contains zero
system-role turns afterwards, and every LLM invocation's message list
contains exactly one system-role turn — never two, also on the second
`voice_input`. -/
theorem C3_amended (env : LoopEnv) (ctx : ScenarioContext)
    (es : List InEvent) (h0 : List Msg)
    (hs : env.scenario = some ctx) (hc : systemCount h0 = 0) :
    systemCount (runLoop env es h0).history = 0 ∧
    ∀ msgs, Effect.agentCall msgs ∈ (runLoop env es h0).effects →
      systemCount msgs = 1 := by
  have main := runLoop_invariant env (fun h => systemCount h = 0)
      (fun e => ∀ msgs, e = .agentCall msgs → systemCount msgs = 1)
      (fun h d h2 fx ctl hI he => by
        obtain ⟨hinv, hcall⟩ := handleData_system_inv hs hI he
        exact ⟨hinv, fun e hm msgs hEq => hcall msgs (hEq ▸ hm)⟩)
      (by simp) (by simp) (fun k => by simp) (by simp) (by simp)
      es h0 hc
  exact ⟨main.1, fun msgs hm => main.2 _ hm msgs rfl⟩

/-- Witness for `C3_amended`: two consecutive voice inputs on a fresh
scenario session. -/
theorem C3_amended_witness :
    systemCount (runLoop envScen [.data voiceHi, .data voiceHi] []).history
      = 0 ∧
    ∀ msgs, Effect.agentCall msgs ∈
        (runLoop envScen [.data voiceHi, .data voiceHi] []).effects →
      systemCount msgs = 1 :=
  C3_amended envScen
    ⟨"Job Interview", "interviewer", "conducting a job interview"⟩
    [.data voiceHi, .data voiceHi] [] rfl rfl

/-- Claim C10 (confirmed): every `ChatMessage` inserted by the websocket
loop or by `send_message` carries role "user" or "assistant"; no path
persists a system-role message, even when a scenario system instruction
was used for the LLM call. -/
theorem C10_persisted_roles :
    (∀ (env : LoopEnv) (es : List InEvent) (h0 : List Msg)
       (role content : String) (tc : Nat) (mt : Option String),
      Effect.insertMessage role content tc mt ∈ (runLoop env es h0).effects →
      role = "user" ∨ role = "assistant") ∧
    (∀ (env : SendEnv) (message role content : String) (tc : Nat)
       (mt : Option String),
      Effect.insertMessage role content tc mt ∈ (sendMessage env message).effects →
      role = "user" ∨ role = "assistant") := by
  constructor
  · intro env es h0 role content tc mt hmem
    have main := runLoop_invariant env (fun _ => True)
        (fun e => ∀ role content tc mt,
          e = .insertMessage role content tc mt →
          role = "user" ∨ role = "assistant")
        (fun h d h2 fx ctl _ he =>
          ⟨trivial, fun e hm r c tcx mtx hEq =>
            handleData_insert_roles he r c tcx mtx (hEq ▸ hm)⟩)
        (by simp) (by simp) (fun k => by simp) (by simp) (by simp)
        es h0 trivial
    exact main.2 _ hmem role content tc mt rfl
  · intro env message role content tc mt hmem
    unfold sendMessage at hmem
    dsimp only at hmem
    split at hmem
    all_goals simp at hmem
    all_goals tauto

/-- Witness for `C10_persisted_roles` at a concrete run. -/
theorem C10_witness :
    Effect.insertMessage "user" "hi" 2 none ∈
      (runLoop envPlain [.data voiceHi] []).effects ∧
    (("user" : String) = "user" ∨ ("user" : String) = "assistant") :=
  ⟨by decide,
   C10_persisted_roles.1 envPlain [.data voiceHi] [] "user" "hi" 2 none
     (by decide)⟩

/-- Claim C5 (confirmed): every `end_conversation` event runs analysis
with the reanalysis flag forced true, emits an analysis event on
success or an error event on failure, and then closes the transport and
leaves the loop unconditionally — for every outcome of the analysis
oracle the step returns `closeAndBreak` with a trailing
`closeTransport`, and the handler exits. -/
theorem C5_end_conversation_closes (env : LoopEnv) (history : List Msg)
    (d : ClientData) (ht : d.typ = some "end_conversation") :
    handleData env history d = .ok (history,
      (match env.analyze true with
       | .ok fid =>
           [.analysisCall true, .send (.analysisEvent fid), .closeTransport]
       | .error _ =>
           [.analysisCall true,
            .send (.errorEvent "Failed to analyze conversation"),
            .closeTransport]),
      .closeAndBreak) ∧
    ∀ rest, (runLoop env (.data d :: rest) history).exited = true := by
  cases ha : env.analyze true with
  | ok fid =>
    refine ⟨by simp [handleData, ht, ha], fun rest => ?_⟩
    simp [runLoop, handleData, ht, ha]
  | error e =>
    refine ⟨by simp [handleData, ht, ha], fun rest => ?_⟩
    simp [runLoop, handleData, ht, ha]

/-- Witness for `C5_end_conversation_closes` at a concrete event. -/
theorem C5_witness :
    handleData envPlain [] endData = .ok ([],
      [.analysisCall true, .send (.analysisEvent "fb1"), .closeTransport],
      .closeAndBreak) ∧
    ∀ rest, (runLoop envPlain (.data endData :: rest) []).exited = true :=
  C5_end_conversation_closes envPlain [] endData rfl

/-- Claim C8, as stated, is false: a syntactically valid JSON object
event lacking a "type" key raises a `KeyError` that escapes the
per-iteration handling, so the loop terminates and the connection is
closed — a later `ping` in the trace is never answered. -/
theorem C8_counterexample :
    (runLoop envPlain [.data noTypeData, .data pingData] []).exited = true ∧
    Effect.send .pong ∉
      (runLoop envPlain [.data noTypeData, .data pingData] []).effects ∧
    Effect.closeTransport ∈
      (runLoop envPlain [.data noTypeData, .data pingData] []).effects := by
  decide

/-- Claim C8 (amended): errors raised inside the `voice_input`
processing block and inside the analysis invocation are caught within
the iteration and converted to error events with the loop continuing,
and an event whose type value is unrecognized is answered with an error
event while the loop continues; but an event payload with no "type" key
raises an uncaught `KeyError`, which terminates the loop and closes the
connection. -/
theorem C8_amended (env : LoopEnv) (h : List Msg) :
    (∀ (t : String) (d : ClientData), d.typ = some t →
      t ≠ "voice_input" → t ≠ "ping" → t ≠ "analyze_conversation" →
      t ≠ "end_conversation" →
      handleData env h d =
        .ok (h, [.send (.errorEvent ("Unknown message type: " ++ t))],
             .next)) ∧
    (∀ (d : ClientData) (e : String), d.typ = some "voice_input" →
      pyStrip (d.text.getD "") ≠ "" →
      ChatAgent.chat env.gen (pyStrip (d.text.getD ""))
        (enhancedHistory env h) = .error e →
      handleData env h d =
        .ok (h,
          [.agentCall (ChatAgent.chatMessages (pyStrip (d.text.getD ""))
             (enhancedHistory env h)),
           .send (.errorEvent ("Error processing your message: " ++ e))],
          .next)) ∧
    (∀ (d : ClientData) (e : String), d.typ = some "analyze_conversation" →
      env.analyze (d.force_reanalysis.getD false) = .error e →
      handleData env h d =
        .ok (h,
          [.analysisCall (d.force_reanalysis.getD false),
           .send (.errorEvent "Failed to analyze conversation")],
          .next)) ∧
    (∀ (txt : Option String) (fr : Option Bool) (rest : List InEvent),
      handleData env h ⟨none, txt, fr⟩ = .error (.keyError "type") ∧
      runLoop env (.data ⟨none, txt, fr⟩ :: rest) h =
        ⟨h, [.send (.errorEvent "\x27type\x27"), .closeTransport], true⟩) := by
  refine ⟨?_, ?_, ?_, ?_⟩
  · intro t d ht h1 h2 h3 h4
    simp [handleData, ht, h1, h2, h3, h4]
  · intro d e ht hne hc
    simp [handleData, ht, hne, hc]
  · intro d e ht ha
    simp [handleData, ht, ha]
  · intro txt fr rest
    exact ⟨rfl, rfl⟩

/-- Witness for `C8_amended` at concrete events and oracles. -/
theorem C8_witness :
    handleData envPlain [] ⟨some "bogus", none, none⟩ =
      .ok ([], [.send (.errorEvent "Unknown message type: bogus")], .next) ∧
    handleData { envPlain with gen := fun _ => .error "boom" } [] voiceHi =
      .ok ([],
        [.agentCall [⟨"user", "hi"⟩],
         .send (.errorEvent "Error processing your message: boom")],
        .next) ∧
    handleData { envPlain with analyze := fun _ => .error "down" } []
        ⟨some "analyze_conversation", none, none⟩ =
      .ok ([],
        [.analysisCall false,
         .send (.errorEvent "Failed to analyze conversation")],
        .next) ∧
    handleData envPlain [] noTypeData = .error (.keyError "type") ∧
    runLoop envPlain [.data noTypeData] [] =
      ⟨[], [.send (.errorEvent "\x27type\x27"), .closeTransport], true⟩ := by
  refine ⟨?_, ?_, ?_, ?_, ?_⟩
  · exact (C8_amended envPlain []).1 "bogus" ⟨some "bogus", none, none⟩
      rfl (by decide) (by decide) (by decide) (by decide)
  · exact (C8_amended { envPlain with gen := fun _ => .error "boom" } []).2.1
      voiceHi "boom" rfl (by decide) rfl
  · exact (C8_amended { envPlain with analyze := fun _ => .error "down" }
      []).2.2.1 ⟨some "analyze_conversation", none, none⟩ "down" rfl rfl
  · exact ((C8_amended envPlain []).2.2.2 none none []).1
  · exact ((C8_amended envPlain []).2.2.2 none none []).2

/-- Claim C9 (confirmed): when the Agent invocation fails on a
non-empty `voice_input`, the handler leaves the in-memory transcript
unchanged, performs no message insert, no usage insert and sends an
error event instead of an assistant message, and the loop continues —
nothing durable records what the user said. -/
theorem C9_agent_failure_persists_nothing (env : LoopEnv)
    (history : List Msg) (d : ClientData) (e : String)
    (ht : d.typ = some "voice_input")
    (hne : pyStrip (d.text.getD "") ≠ "")
    (hc : ChatAgent.chat env.gen (pyStrip (d.text.getD ""))
      (enhancedHistory env history) = .error e) :
    handleData env history d = .ok (history,
      [.agentCall (ChatAgent.chatMessages (pyStrip (d.text.getD ""))
         (enhancedHistory env history)),
       .send (.errorEvent ("Error processing your message: " ++ e))],
      .next) ∧
    (∀ (role content : String) (tc : Nat) (mt : Option String),
      Effect.insertMessage role content tc mt ∉
        ([.agentCall (ChatAgent.chatMessages (pyStrip (d.text.getD ""))
            (enhancedHistory env history)),
          .send (.errorEvent ("Error processing your message: " ++ e))]
          : List Effect)) ∧
    (∀ (m : String) (p c t : Nat),
      Effect.insertUsage m p c t ∉
        ([.agentCall (ChatAgent.chatMessages (pyStrip (d.text.getD ""))
            (enhancedHistory env history)),
          .send (.errorEvent ("Error processing your message: " ++ e))]
          : List Effect)) ∧
    (∀ (txt : String) (u : Usage),
      Effect.send (.assistantMessage txt u) ∉
        ([.agentCall (ChatAgent.chatMessages (pyStrip (d.text.getD ""))
            (enhancedHistory env history)),
          .send (.errorEvent ("Error processing your message: " ++ e))]
          : List Effect)) := by
  refine ⟨by simp [handleData, ht, hne, hc], ?_, ?_, ?_⟩
  · intro role content tc mt; simp
  · intro m p c t; simp
  · intro txt u
    simp only [List.mem_cons, List.not_mem_nil, or_false]
    rintro (hEq | hEq) <;> simp at hEq

/-- Witness for `C9_agent_failure_persists_nothing` with a failing
provider oracle. -/
theorem C9_witness :
    handleData { envPlain with gen := fun _ => .error "llm down" } []
        voiceHi =
      .ok ([],
        [.agentCall [⟨"user", "hi"⟩],
         .send (.errorEvent "Error processing your message: llm down")],
        .next) :=
  (C9_agent_failure_persists_nothing
    { envPlain with gen := fun _ => .error "llm down" } [] voiceHi
    "llm down" rfl (by decide) rfl).1

/-- A `send_message` environment on a fresh session with no scenario. -/
def envSend : SendEnv :=
  { countTokens := fun s => s.length
    gen := demoGen
    persistedHistory := []
    scenarioMetadata := none
    language := "en" }

/-- Claim C2, as stated, is false — the two paths are swapped: in
`send_message` the user-message insert (chat.py line 342) precedes the
Agent call (line 345), while in the websocket path the Agent call
(conversation.py line 391) precedes the user-message insert (line 405). -/
theorem C2_counterexample :
    (sendMessage envSend "hola").effects.take 2 =
      [.insertMessage "user" "hola" 4 none,
       .agentCall [⟨"user", "hola"⟩]] ∧
    (runLoop envPlain [.data voiceHi] []).effects.take 2 =
      [.agentCall [⟨"user", "hi"⟩],
       .insertMessage "user" "hi" 2 none] := by
  decide

/-- Claim C2 (amended): of the two message-processing code paths,
`send_message` persists the user message before invoking the Agent (so
its insert precedes the provider call in every run), while the
websocket path invokes the Agent first and persists the user message
only after the call completes. -/
theorem C2_amended :
    (∀ (env : SendEnv) (message : String), ∃ rest,
      (sendMessage env message).effects =
        Effect.insertMessage "user" message (env.countTokens message) none ::
        Effect.agentCall
          (ChatAgent.chatMessages message (sendMessageHistory env)) ::
        rest) ∧
    (∀ (env : LoopEnv) (h : List Msg) (d : ClientData) (r : AgentChatOut),
      d.typ = some "voice_input" →
      pyStrip (d.text.getD "") ≠ "" →
      ChatAgent.chat env.gen (pyStrip (d.text.getD ""))
        (enhancedHistory env h) = .ok r →
      handleData env h d = .ok
        (h ++ [⟨"user", pyStrip (d.text.getD "")⟩,
               ⟨"assistant", r.response⟩],
         [.agentCall (ChatAgent.chatMessages (pyStrip (d.text.getD ""))
            (enhancedHistory env h)),
          .insertMessage "user" (pyStrip (d.text.getD ""))
            (env.countTokens (pyStrip (d.text.getD ""))) none,
          .insertMessage "assistant" r.response r.usage.completion_tokens
            (some r.model),
          .insertUsage r.model r.usage.prompt_tokens
            r.usage.completion_tokens r.usage.total_tokens,
          .send (.assistantMessage r.response r.usage)],
         .next)) := by
  constructor
  · intro env message
    rcases hg : ChatAgent.chat env.gen message (sendMessageHistory env)
      with e | r
    · exact ⟨[.agentCall
        (ChatAgent.chatMessages message (sendMessageHistory env))].tail,
        by simp [sendMessage, hg]⟩
    · exact ⟨[.insertMessage "assistant" r.response
          r.usage.completion_tokens (some r.model),
        .insertUsage r.model r.usage.prompt_tokens
          r.usage.completion_tokens r.usage.total_tokens,
        .sessionSave], by simp [sendMessage, hg]⟩
  · intro env h d r ht hne hc
    simp [handleData, ht, hne, hc]

/-- Witness for `C2_amended` at concrete runs of both paths. -/
theorem C2_amended_witness :
    (∃ rest, (sendMessage envSend "hola").effects =
      Effect.insertMessage "user" "hola" 4 none ::
      Effect.agentCall [⟨"user", "hola"⟩] :: rest) ∧
    handleData envPlain [] voiceHi = .ok
      ([⟨"user", "hi"⟩, ⟨"assistant", "ok-resp"⟩],
       [.agentCall [⟨"user", "hi"⟩],
        .insertMessage "user" "hi" 2 none,
        .insertMessage "assistant" "ok-resp" 1 (some "m1"),
        .insertUsage "m1" 1 1 2,
        .send (.assistantMessage "ok-resp" ⟨1, 1, 2⟩)],
       .next) :=
  ⟨C2_amended.1 envSend "hola",
   C2_amended.2 envPlain [] voiceHi
     ⟨"ok-resp", ⟨1, 1, 2⟩, "m1",
      [⟨"user", "hi"⟩, ⟨"assistant", "ok-resp"⟩]⟩
     rfl (by decide) rfl⟩

/-- A loop environment whose provider reports an inconsistent usage
total (7 instead of 1 + 2). -/
def envBadUsage : LoopEnv :=
  { envPlain with gen := fun _ => .ok ⟨"resp", ⟨1, 2, 7⟩, "m2", "stop"⟩ }

/-- Claim C4, as stated, is false in its `total_tokens` clause: a
successfully processed non-empty `voice_input` does create exactly one
user Message, one assistant Message (in that order) and one Usage
Record, but the record copies the provider-reported counters verbatim,
so when the provider reports prompt 1, completion 2, total 7 the stored
total is 7 ≠ 1 + 2 — the code never enforces the sum. -/
theorem C4_counterexample :
    (runLoop envBadUsage [.data voiceHi] []).effects =
      [.agentCall [⟨"user", "hi"⟩],
       .insertMessage "user" "hi" 2 none,
       .insertMessage "assistant" "resp" 2 (some "m2"),
       .insertUsage "m2" 1 2 7,
       .send (.assistantMessage "resp" ⟨1, 2, 7⟩)] ∧
    (7 : Nat) ≠ 1 + 2 := by
  decide

/-- Claim C4 (amended): for every non-empty `voice_input` processed
successfully, exactly one user Message and one assistant Message are
persisted, in that order (user first), and exactly one Usage Record is
created whose prompt, completion and total token counts are copied
verbatim from the provider's reported usage (`OpenAIProvider.generate`
copies the raw API counters unchanged); `total_tokens` equals
`prompt_tokens + completion_tokens` exactly when the provider's
response satisfies that sum. -/
theorem C4_amended :
    (∀ (env : LoopEnv) (h : List Msg) (d : ClientData) (r : AgentChatOut),
      d.typ = some "voice_input" →
      pyStrip (d.text.getD "") ≠ "" →
      ChatAgent.chat env.gen (pyStrip (d.text.getD ""))
        (enhancedHistory env h) = .ok r →
      handleData env h d = .ok
        (h ++ [⟨"user", pyStrip (d.text.getD "")⟩,
               ⟨"assistant", r.response⟩],
         [.agentCall (ChatAgent.chatMessages (pyStrip (d.text.getD ""))
            (enhancedHistory env h)),
          .insertMessage "user" (pyStrip (d.text.getD ""))
            (env.countTokens (pyStrip (d.text.getD ""))) none,
          .insertMessage "assistant" r.response r.usage.completion_tokens
            (some r.model),
          .insertUsage r.model r.usage.prompt_tokens
            r.usage.completion_tokens r.usage.total_tokens,
          .send (.assistantMessage r.response r.usage)],
         .next) ∧
      (r.usage.total_tokens =
          r.usage.prompt_tokens + r.usage.completion_tokens →
        Effect.insertUsage r.model r.usage.prompt_tokens
            r.usage.completion_tokens
            (r.usage.prompt_tokens + r.usage.completion_tokens) ∈
          [Effect.agentCall (ChatAgent.chatMessages (pyStrip (d.text.getD ""))
             (enhancedHistory env h)),
           Effect.insertMessage "user" (pyStrip (d.text.getD ""))
             (env.countTokens (pyStrip (d.text.getD ""))) none,
           Effect.insertMessage "assistant" r.response
             r.usage.completion_tokens (some r.model),
           Effect.insertUsage r.model r.usage.prompt_tokens
             r.usage.completion_tokens r.usage.total_tokens,
           Effect.send (.assistantMessage r.response r.usage)])) ∧
    (∀ resp : ApiResponse, (OpenAIProvider.generate resp).usage =
      ⟨resp.usage.prompt_tokens, resp.usage.completion_tokens,
       resp.usage.total_tokens⟩) := by
  constructor
  · intro env h d r ht hne hc
    refine ⟨by simp [handleData, ht, hne, hc], fun hsum => ?_⟩
    rw [hsum]
    simp
  · intro resp
    rfl

/-- Witness for `C4_amended` at a concrete run with a consistent
provider usage report. -/
theorem C4_amended_witness :
    (handleData envPlain [] voiceHi = .ok
      ([⟨"user", "hi"⟩, ⟨"assistant", "ok-resp"⟩],
       [.agentCall [⟨"user", "hi"⟩],
        .insertMessage "user" "hi" 2 none,
        .insertMessage "assistant" "ok-resp" 1 (some "m1"),
        .insertUsage "m1" 1 1 2,
        .send (.assistantMessage "ok-resp" ⟨1, 1, 2⟩)],
       .next) ∧
     ((1 : Nat) + 1 = 1 + 1 →
       Effect.insertUsage "m1" 1 1 (1 + 1) ∈
         [Effect.agentCall [⟨"user", "hi"⟩],
          Effect.insertMessage "user" "hi" 2 none,
          Effect.insertMessage "assistant" "ok-resp" 1 (some "m1"),
          Effect.insertUsage "m1" 1 1 2,
          Effect.send (.assistantMessage "ok-resp" ⟨1, 1, 2⟩)])) ∧
    (OpenAIProvider.generate ⟨"c", ⟨3, 4, 7⟩, "m", "stop"⟩).usage =
      ⟨3, 4, 7⟩ :=
  ⟨C4_amended.1 envPlain [] voiceHi
     ⟨"ok-resp", ⟨1, 1, 2⟩, "m1",
      [⟨"user", "hi"⟩, ⟨"assistant", "ok-resp"⟩]⟩
     rfl (by decide) rfl,
   C4_amended.2 ⟨"c", ⟨3, 4, 7⟩, "m", "stop"⟩⟩

/-- A scenario-resolution environment holding one stored meeting
analysis owned by user 1, with a short transcription. -/
def envMeet : ScenarioEnv :=
  { meetingGet := fun _ =>
      .ok (some ⟨1, "Quarterly Planning", "short transcript"⟩)
    customGet := fun _ => .ok none }

/-- Claim C6, as stated, is false: the resolver dispatches on the type
value "meeting", not "past-meeting" — with scenario type "past-meeting"
and an existing meeting analysis owned by the caller it returns `none`,
while the same reference under type "meeting" returns the summary
descriptor. -/
theorem C6_counterexample :
    get_scenario_context envMeet "meeting_abc" "past-meeting" 1 = none ∧
    get_scenario_context envMeet "meeting_abc" "meeting" 1 =
      some ⟨"Quarterly Planning", "meeting participant",
            "meeting about Quarterly Planning"⟩ := by
  decide

/-- Claim C6 (amended): the resolver dispatches on the type value
"meeting"; given an existing meeting analysis owned by the caller it
returns a descriptor whose title is the meeting name and whose summary
names the meeting and, only when the transcription exceeds 200
characters, embeds exactly its first 200 characters (never the full
transcript); a transcription of at most 200 characters is not excerpted
at all. -/
theorem C6_amended (env : ScenarioEnv) (sid : String) (uid : Nat)
    (a : MeetingAnalysis)
    (hget : env.meetingGet (sid.replace "meeting_" "") = .ok (some a))
    (hown : a.userId = uid) :
    get_scenario_context env sid "meeting" uid =
      some ⟨a.meeting_name, "meeting participant", meetingSummary a⟩ ∧
    (200 < a.transcription.length →
      meetingSummary a = "meeting about " ++ a.meeting_name ++
        " - topic: " ++ a.transcription.take 200 ++ "..." ∧
      (a.transcription.take 200).length = 200 ∧
      a.transcription.take 200 ≠ a.transcription) ∧
    (a.transcription.length ≤ 200 →
      meetingSummary a = "meeting about " ++ a.meeting_name) := by
  refine ⟨?_, fun hlen => ⟨?_, ?_, ?_⟩, fun hle => ?_⟩
  · simp [get_scenario_context, getScenarioContextBody, hget, hown, bind, Except.bind, pure, Except.pure]
  · simp [meetingSummary, hlen]
  · rw [String.take_eq]
    have h2 : 200 < a.transcription.data.length := hlen
    simp [List.length_take]
    omega
  · intro hEq
    have hl := congrArg String.length hEq
    rw [String.take_eq] at hl
    have h2 : 200 < a.transcription.data.length := hlen
    simp [List.length_take] at hl
    omega
  · have : ¬(200 < a.transcription.length) := by omega
    simp [meetingSummary, this]

/-- A stored meeting analysis with a 230-character transcription. -/
def longMeeting : MeetingAnalysis :=
  ⟨1, "Standup", ⟨List.replicate 230 (Char.ofNat 97)⟩⟩

/-- A scenario-resolution environment holding `longMeeting`. -/
def envMeetLong : ScenarioEnv :=
  { meetingGet := fun _ => .ok (some longMeeting)
    customGet := fun _ => .ok none }

/-- Witness for `C6_amended` on a meeting whose transcription exceeds
200 characters. -/
theorem C6_amended_witness :
    get_scenario_context envMeetLong "meeting_x" "meeting" 1 =
      some ⟨longMeeting.meeting_name, "meeting participant",
            meetingSummary longMeeting⟩ ∧
    (200 < longMeeting.transcription.length →
      meetingSummary longMeeting = "meeting about " ++
        longMeeting.meeting_name ++ " - topic: " ++
        longMeeting.transcription.take 200 ++ "..." ∧
      (longMeeting.transcription.take 200).length = 200 ∧
      longMeeting.transcription.take 200 ≠ longMeeting.transcription) ∧
    (longMeeting.transcription.length ≤ 200 →
      meetingSummary longMeeting = "meeting about " ++
        longMeeting.meeting_name) :=
  C6_amended envMeetLong "meeting_x" 1 longMeeting rfl rfl

/-- Claim C7 (confirmed): scenario resolution never raises — a raised
database error inside the body is converted to `None` by the catch-all;
an unknown predefined id, a not-found meeting and a not-owned meeting
all yield `None`; a missing custom record yields the generic fallback
descriptor titled "Custom Scenario" rather than `None`. -/
theorem C7_resolver_never_raises :
    (∀ (env : ScenarioEnv) (sid st : String) (uid : Nat) (e : String),
      getScenarioContextBody env sid st uid = .error e →
      get_scenario_context env sid st uid = none) ∧
    (∀ (env : ScenarioEnv) (sid : String) (uid : Nat),
      predefinedScenarios sid = none →
      get_scenario_context env sid "predefined" uid = none) ∧
    (∀ (env : ScenarioEnv) (sid : String) (uid : Nat),
      env.meetingGet (sid.replace "meeting_" "") = .ok none →
      get_scenario_context env sid "meeting" uid = none) ∧
    (∀ (env : ScenarioEnv) (sid : String) (uid : Nat) (a : MeetingAnalysis),
      env.meetingGet (sid.replace "meeting_" "") = .ok (some a) →
      a.userId ≠ uid →
      get_scenario_context env sid "meeting" uid = none) ∧
    (∀ (env : ScenarioEnv) (sid : String) (uid : Nat) (e : String),
      env.meetingGet (sid.replace "meeting_" "") = .error e →
      get_scenario_context env sid "meeting" uid = none) ∧
    (∀ (env : ScenarioEnv) (sid : String) (uid : Nat),
      env.customGet (sid.replace "custom_" "") = .ok none →
      get_scenario_context env sid "custom" uid = some customFallback ∧
      customFallback.title = "Custom Scenario") := by
  refine ⟨?_, ?_, ?_, ?_, ?_, ?_⟩
  · intro env sid st uid e hbody
    simp [get_scenario_context, hbody]
  · intro env sid uid hpre
    simp [get_scenario_context, getScenarioContextBody, hpre]
  · intro env sid uid hget
    simp [get_scenario_context, getScenarioContextBody, hget, bind, Except.bind, pure, Except.pure]
  · intro env sid uid a hget hown
    simp [get_scenario_context, getScenarioContextBody, hget, hown, bind, Except.bind, pure, Except.pure]
  · intro env sid uid e hget
    simp [get_scenario_context, getScenarioContextBody, hget, bind, Except.bind, pure, Except.pure]
  · intro env sid uid hget
    exact ⟨by simp [get_scenario_context, getScenarioContextBody, hget, bind, Except.bind, pure, Except.pure], rfl⟩

/-- A scenario-resolution environment whose meeting store raises and
whose custom store finds nothing. -/
def envRaise : ScenarioEnv :=
  { meetingGet := fun _ => .error "db down"
    customGet := fun _ => .ok none }

/-- Witness for `C7_resolver_never_raises` at concrete stores. -/
theorem C7_witness :
    get_scenario_context envRaise "m1" "meeting" 1 = none ∧
    get_scenario_context envRaise "unknown_id" "predefined" 1 = none ∧
    get_scenario_context envMeet "meeting_abc" "meeting" 2 = none ∧
    (get_scenario_context envRaise "c1" "custom" 1 = some customFallback ∧
      customFallback.title = "Custom Scenario") :=
  ⟨C7_resolver_never_raises.2.2.2.2.1 envRaise "m1" 1 "db down" rfl,
   C7_resolver_never_raises.2.1 envRaise "unknown_id" 1 rfl,
   C7_resolver_never_raises.2.2.2.1 envMeet "meeting_abc" 2
     ⟨1, "Quarterly Planning", "short transcript"⟩ rfl (by decide),
   C7_resolver_never_raises.2.2.2.2.2 envRaise "c1" 1 rfl⟩

end LangLearn
